import Mathlib

/-!
Shallow embedding of the `quad_trajectories` Python package
(`src/quad_trajectories/{types,core,utils}.py`).

Modelling conventions:
* Python floats become real numbers `ℝ`; all arithmetic is exact real
  arithmetic (every divisor appearing in the code is a nonzero constant,
  so the real semantics matches the float semantics up to rounding and
  every produced component is a finite real).
* `TrajContext` is the frozen dataclass of `types.py`; its optional
  fields become `Option` values and Python truthiness of an optional
  boolean (`None` is falsy) is `truthy`.
* Code that raises becomes `Except TrajError`, one constructor per
  Python exception class raised (`ValueError`, `RuntimeError`,
  `TypeError`).  `jnp.where(cond, a, b)` rejects `None` as its
  condition (JAX raises `TypeError` for non-arraylike conditions), which
  is modelled in `fig8_vertical`.
* `jax.jit` is modelled as semantics-preserving (the identity), per its
  contract; the compilation backend is outside the embedded core.
  `jax.vmap` of a function over a batch of samples is the data-parallel
  map, failing exactly when a scalar call would fail: `List.mapM` in the
  `Except` monad.
* `jax.jacfwd` (automatic differentiation) is an external capability;
  the horizon/velocity utilities take it as an explicit functional
  argument `J` of type
  `(ℝ → TrajContext → Except TrajError Vec4) → ℝ → TrajContext → Except TrajError Vec4`.
* Python `%` on floats with a positive modulus is `fmod`, and
  `np.linspace(a, b, n)` (endpoint inclusive) is `linspace`.
-/

noncomputable section

namespace QuadTraj

open Real

/-- The frozen `TrajContext` dataclass of `types.py`. -/
structure TrajContext where
  sim : Bool
  hover_mode : Option Int := none
  spin : Option Bool := none
  double_speed : Option Bool := none
  short : Option Bool := none
deriving DecidableEq, Repr

/-- Python exceptions raised by the embedded code. -/
inductive TrajError where
  | valueError (msg : String)
  | runtimeError (msg : String)
  | typeError (msg : String)
deriving DecidableEq, Repr

/-- A position sample `[x, y, z, yaw]`. -/
@[ext] structure Vec4 where
  x : ℝ
  y : ℝ
  z : ℝ
  yaw : ℝ

/-- Python truthiness of an optional boolean field: `None` is falsy. -/
def truthy (o : Option Bool) : Bool := o.getD false

/-- Python float modulo (positive modulus): `x - c * floor (x / c)`. -/
def fmod (x c : ℝ) : ℝ := x - c * ⌊x / c⌋

/-- `SIM_HEIGHT` constant of `core.py`. -/
def SIM_HEIGHT : ℝ := 3.0

/-- `HARDWARE_HEIGHT` constant of `core.py`. -/
def HARDWARE_HEIGHT : ℝ := 0.85

/-- The `hover_dict` table built inside `hover` (`core.py`), keyed by mode. -/
def hover_dict : List (Int × Vec4) :=
  [(1, ⟨0.0, 0.0, -0.9, 0.0⟩),
   (2, ⟨0.0, 0.8, -0.9, 0.0⟩),
   (3, ⟨0.8, 0.0, -0.8, 0.0⟩),
   (4, ⟨0.8, 0.8, -0.8, 0.0⟩),
   (5, ⟨0.0, 0.0, -10.0, 0.0⟩),
   (6, ⟨1.0, 1.0, -4.0, 0.0⟩),
   (7, ⟨0.0, 10.0, -5.0, 0.0⟩),
   (8, ⟨1.0, 1.0, -3.0, 0.0⟩)]

/-- `hover` of `core.py`: constant hover position selected by
`ctx.hover_mode` (default 1); raises `ValueError` when the mode is not a
key of `hover_dict`, then `RuntimeError` when not `sim` and `mode > 4`. -/
def hover (_t : ℝ) (ctx : TrajContext) : Except TrajError Vec4 :=
  let mode : Int := ctx.hover_mode.getD 1
  match hover_dict.lookup mode with
  | none => .error (.valueError ("hover_dict #" ++ toString mode ++ " not found"))
  | some v =>
    if ¬ctx.sim ∧ 4 < mode then
      .error (.runtimeError "hover modes 5+ not available for hardware")
    else
      .ok v

/-- `yaw_only` of `core.py`: stationary position with yawing motion. -/
def yaw_only (t : ℝ) (ctx : TrajContext) : Except TrajError Vec4 :=
  let height : ℝ := if ¬ctx.sim then HARDWARE_HEIGHT else SIM_HEIGHT
  let spin_period : ℝ := 20.0
  let spin_period := if truthy ctx.double_speed then spin_period / 2 else spin_period
  .ok { x := 0.0, y := 0.0, z := -height, yaw := t / (spin_period / (2 * π)) }

/-- `circle_horizontal` of `core.py`. -/
def circle_horizontal (t : ℝ) (ctx : TrajContext) : Except TrajError Vec4 :=
  let radius : ℝ := 0.6
  let period_pos : ℝ := 13.0
  let height : ℝ := if ¬ctx.sim then HARDWARE_HEIGHT else SIM_HEIGHT
  let period_spin : ℝ := 20.0
  let omega_spin : ℝ := if truthy ctx.spin then 2 * π / period_spin else 0.0
  let period_pos := if truthy ctx.double_speed then period_pos / 2 else period_pos
  let omega_pos : ℝ := 2 * π / period_pos
  .ok { x := radius * cos (omega_pos * t), y := radius * sin (omega_pos * t),
        z := -height, yaw := omega_spin * t }

/-- `circle_vertical` of `core.py`. -/
def circle_vertical (t : ℝ) (ctx : TrajContext) : Except TrajError Vec4 :=
  let radius : ℝ := 0.35
  let period_pos : ℝ := 13.0
  let height : ℝ := if ¬ctx.sim then HARDWARE_HEIGHT else SIM_HEIGHT
  let period_spin : ℝ := 20.0
  let omega_spin : ℝ := if truthy ctx.spin then 2 * π / period_spin else 0.0
  let period_pos := if truthy ctx.double_speed then period_pos / 2 else period_pos
  let omega_pos : ℝ := 2 * π / period_pos
  .ok { x := radius * cos (omega_pos * t), y := 0.0,
        z := -radius * sin (omega_pos * t) - height, yaw := omega_spin * t }

/-- `fig8_horizontal` of `core.py`. -/
def fig8_horizontal (t : ℝ) (ctx : TrajContext) : Except TrajError Vec4 :=
  let radius : ℝ := 0.35
  let period_pos : ℝ := 13.0
  let height : ℝ := if ¬ctx.sim then HARDWARE_HEIGHT else SIM_HEIGHT
  let period_spin : ℝ := 20.0
  let omega_spin : ℝ := if truthy ctx.spin then 2 * π / period_spin else 0.0
  let period_pos := if truthy ctx.double_speed then period_pos / 2 else period_pos
  let omega_pos : ℝ := 2 * π / period_pos
  .ok { x := radius * sin (2 * omega_pos * t), y := radius * sin (omega_pos * t),
        z := -height, yaw := omega_spin * t }

/-- `fig8_vertical` of `core.py`: the y/z axes are selected by
`jnp.where(ctx.short, yz1, yz2)`.  When `ctx.short` is `None`, JAX
rejects the condition (`TypeError: where requires ndarray or scalar
arguments`); otherwise the boolean selects the branch. -/
def fig8_vertical (t : ℝ) (ctx : TrajContext) : Except TrajError Vec4 :=
  let radius : ℝ := 0.35
  let period_pos : ℝ := 13.0
  let height : ℝ := if ¬ctx.sim then HARDWARE_HEIGHT else SIM_HEIGHT
  let period_spin : ℝ := 20.0
  let omega_spin : ℝ := if truthy ctx.spin then 2 * π / period_spin else 0.0
  let period_pos := if truthy ctx.double_speed then period_pos / 2 else period_pos
  let omega_pos : ℝ := 2 * π / period_pos
  let yz1 := radius * sin (omega_pos * t)
  let yz2 := radius * sin (2 * omega_pos * t)
  match ctx.short with
  | none => .error (.typeError "where requires ndarray or scalar arguments, got NoneType")
  | some b =>
    .ok { x := 0.0, y := if b then yz1 else yz2,
          z := if b then -yz2 - height else -yz1 - height, yaw := omega_spin * t }

/-- `helix` of `core.py`: spirals between heights `z0` and `z_max`,
ascending on the first half of the cycle and descending on the second. -/
def helix (t : ℝ) (ctx : TrajContext) : Except TrajError Vec4 :=
  let z0 : ℝ := if ¬ctx.sim then HARDWARE_HEIGHT else 2.0
  let z_max : ℝ := if ¬ctx.sim then 2.6 else SIM_HEIGHT
  let radius : ℝ := 0.6
  let num_turns : ℝ := 3
  let cycle_time : ℝ := 45.0
  let period_spin : ℝ := 30.0
  let omega_spin : ℝ := if truthy ctx.spin then 2 * π / period_spin else 0.0
  let cycle_time := if truthy ctx.double_speed then cycle_time / 2 else cycle_time
  let t_cycle := fmod t cycle_time
  let T_half := cycle_time / 2.0
  let z_up := z0 + (z_max - z0) * (t_cycle / T_half)
  let progress_up := (z_up - z0) / (z_max - z0)
  let t_down := t_cycle - T_half
  let z_down := z_max - (z_max - z0) * (t_down / T_half)
  let progress_down := (z_down - z0) / (z_max - z0)
  let z := if t_cycle ≤ T_half then z_up else z_down
  let progress := if t_cycle ≤ T_half then progress_up else progress_down
  let theta := 2 * π * num_turns * progress
  .ok { x := radius * cos theta, y := radius * sin theta, z := -z, yaw := omega_spin * t }

/-- The fixed waypoint list of `sawtooth` (`core.py`, 12 points). -/
def sawtooth_points : List (ℝ × ℝ) :=
  [(0.0, 0.0), (0.0, 0.4), (0.4, -0.4), (0.4, 0.4), (0.4, -0.4),
   (0.0, 0.4), (0.0, -0.4), (-0.4, 0.4), (-0.4, -0.4),
   (-0.4, 0.4), (0.0, -0.4), (0.0, 0.0)]

/-- `sawtooth` of `core.py`: waypoint interpolation over 11 segments. -/
def sawtooth (t : ℝ) (ctx : TrajContext) : Except TrajError Vec4 :=
  let height : ℝ := if ¬ctx.sim then HARDWARE_HEIGHT else SIM_HEIGHT
  let flight_time : ℝ := 120.0
  let num_repeats : ℝ := if truthy ctx.double_speed then 2 else 1
  let period_spin : ℝ := 30.0
  let omega_spin : ℝ := if truthy ctx.spin then 2 * π / period_spin else 0.0
  let adjusted_flight_time := flight_time / num_repeats
  let num_segments : ℕ := sawtooth_points.length - 1
  let T_seg := adjusted_flight_time / (num_segments : ℝ)
  let cycle_time := fmod t ((num_segments : ℝ) * T_seg)
  let segment_idx : ℤ := ⌊cycle_time / T_seg⌋
  let segment_idx : ℤ := max 0 (min segment_idx ((num_segments : ℤ) - 1))
  let local_time := cycle_time - (segment_idx : ℝ) * T_seg
  let start_point := sawtooth_points.getD segment_idx.toNat (0, 0)
  let end_point := sawtooth_points.getD (((segment_idx + 1) % (sawtooth_points.length : ℤ)).toNat) (0, 0)
  let alpha := local_time / T_seg
  .ok { x := start_point.1 + (end_point.1 - start_point.1) * alpha,
        y := start_point.2 + (end_point.2 - start_point.2) * alpha,
        z := -height, yaw := omega_spin * t }

/-- The triangle vertex list of `triangle` (`core.py`): an equilateral
triangle of side length 0.8, `h = sqrt (side^2 - (side/2)^2)`. -/
def triangle_points : List (ℝ × ℝ) :=
  let side_length : ℝ := 0.8
  let h := Real.sqrt (side_length ^ 2 - (side_length / 2) ^ 2)
  [(0.0, h / 2), (side_length / 2, -h / 2), (-side_length / 2, -h / 2)]

/-- `triangle` of `core.py`: waypoint interpolation over 3 segments. -/
def triangle (t : ℝ) (ctx : TrajContext) : Except TrajError Vec4 :=
  let height : ℝ := if ¬ctx.sim then HARDWARE_HEIGHT else SIM_HEIGHT
  let flight_time : ℝ := 60.0
  let num_repeats : ℝ := if truthy ctx.double_speed then 2 else 1
  let period_spin : ℝ := 20.0
  let omega_spin : ℝ := if truthy ctx.spin then 2 * π / period_spin else 0.0
  let T_seg := flight_time / (3 * num_repeats)
  let cycle_time := fmod t (3 * T_seg)
  let segment_idx : ℤ := ⌊cycle_time / T_seg⌋
  let segment_idx : ℤ := max 0 (min segment_idx 2)
  let local_time := cycle_time - (segment_idx : ℝ) * T_seg
  let start_point := triangle_points.getD segment_idx.toNat (0, 0)
  let end_point := triangle_points.getD (((segment_idx + 1) % 3).toNat) (0, 0)
  let alpha := local_time / T_seg
  .ok { x := start_point.1 + (end_point.1 - start_point.1) * alpha,
        y := start_point.2 + (end_point.2 - start_point.2) * alpha,
        z := -height, yaw := omega_spin * t }

/-- `np.linspace a b n` with the endpoint included: sample `k` is
`a + k * ((b - a) / (n - 1))` for `k = 0 .. n-1`. -/
def linspace (a b : ℝ) (n : ℕ) : List ℝ :=
  (List.range n).map (fun (k : ℕ) => a + (k : ℝ) * ((b - a) / ((n : ℝ) - 1)))

/-- `generate_horizon_positions` of `utils.py`.  There is no
`num_steps` validation in the source: `num_steps == 1` uses the single
sample `[t_start]`, otherwise `np.linspace` is called, which raises
`ValueError` for a negative count and returns an empty batch for zero.
`vmap` of the trajectory over the samples is `List.mapM` in `Except`. -/
def generate_horizon_positions (traj_fn : ℝ → TrajContext → Except TrajError Vec4)
    (ctx : TrajContext) (t_start horizon : ℝ) (num_steps : ℤ) :
    Except TrajError (List Vec4) :=
  if num_steps = 1 then
    List.mapM (fun t => traj_fn t ctx) [t_start]
  else if num_steps < 0 then
    .error (.valueError "Number of samples must be non-negative")
  else
    List.mapM (fun t => traj_fn t ctx)
      (linspace t_start (t_start + horizon) num_steps.toNat)

/-- `generate_horizon_with_velocity` of `utils.py`.  `J` abstracts the
external `jax.jacfwd` capability (forward-mode differentiation in the
time argument); per sample the position and the derivative are computed
together.  `num_steps <= 0` raises `ValueError` before any sampling. -/
def generate_horizon_with_velocity
    (J : (ℝ → TrajContext → Except TrajError Vec4) → ℝ → TrajContext → Except TrajError Vec4)
    (traj_fn : ℝ → TrajContext → Except TrajError Vec4)
    (ctx : TrajContext) (t_start horizon : ℝ) (num_steps : ℤ) :
    Except TrajError (List (Vec4 × Vec4)) :=
  if num_steps ≤ 0 then
    .error (.valueError "num_steps must be >= 1")
  else
    let t_samples := if num_steps = 1 then [t_start]
      else linspace t_start (t_start + horizon) num_steps.toNat
    List.mapM (fun t => do
      let pos ← traj_fn t ctx
      let vel ← J traj_fn t ctx
      pure (pos, vel)) t_samples

/-- `generate_reference_trajectory` of `utils.py`: the compatibility
form, same arguments in the original order, delegating directly to
`generate_horizon_with_velocity`. -/
def generate_reference_trajectory
    (J : (ℝ → TrajContext → Except TrajError Vec4) → ℝ → TrajContext → Except TrajError Vec4)
    (traj_func : ℝ → TrajContext → Except TrajError Vec4)
    (t_start horizon : ℝ) (num_steps : ℤ) (ctx : TrajContext) :
    Except TrajError (List (Vec4 × Vec4)) :=
  generate_horizon_with_velocity J traj_func ctx t_start horizon num_steps

/-- The x/y/z components of a sample, dropping yaw. -/
def xyz (v : Vec4) : ℝ × ℝ × ℝ := (v.x, v.y, v.z)

/-- The positional period of the circle and figure-eight trajectories:
13 seconds, halved when `double_speed` is set. -/
def pos_period (ctx : TrajContext) : ℝ :=
  if truthy ctx.double_speed then 13.0 / 2 else 13.0

/-- The segment duration of `sawtooth`:
`(flight_time / num_repeats) / num_segments`. -/
def sawtooth_T_seg (ctx : TrajContext) : ℝ :=
  120.0 / (if truthy ctx.double_speed then 2 else 1) / ((sawtooth_points.length - 1 : ℕ) : ℝ)

/-- The segment duration of `triangle`: `flight_time / (3 * num_repeats)`. -/
def triangle_T_seg (ctx : TrajContext) : ℝ :=
  60.0 / (3 * (if truthy ctx.double_speed then 2 else 1))

/-! ### Helper lemmas -/

theorem hover_lookup_none (m : ℤ) (h : m < 1 ∨ 8 < m) : hover_dict.lookup m = none := by
  have h1 : (m == 1) = false := by simp [beq_eq_false_iff_ne]; omega
  have h2 : (m == 2) = false := by simp [beq_eq_false_iff_ne]; omega
  have h3 : (m == 3) = false := by simp [beq_eq_false_iff_ne]; omega
  have h4 : (m == 4) = false := by simp [beq_eq_false_iff_ne]; omega
  have h5 : (m == 5) = false := by simp [beq_eq_false_iff_ne]; omega
  have h6 : (m == 6) = false := by simp [beq_eq_false_iff_ne]; omega
  have h7 : (m == 7) = false := by simp [beq_eq_false_iff_ne]; omega
  have h8 : (m == 8) = false := by simp [beq_eq_false_iff_ne]; omega
  simp [hover_dict, List.lookup, h1, h2, h3, h4, h5, h6, h7, h8]

theorem hover_lookup_found (m : ℤ) (h1 : 1 ≤ m) (h2 : m ≤ 8) :
    ∃ v, hover_dict.lookup m = some v ∧ v.yaw = 0 := by
  interval_cases m <;> exact ⟨_, rfl, by norm_num⟩

theorem hover_invalid_mode (t : ℝ) (ctx : TrajContext)
    (h : ctx.hover_mode.getD 1 < 1 ∨ 8 < ctx.hover_mode.getD 1) :
    hover t ctx =
      .error (.valueError ("hover_dict #" ++ toString (ctx.hover_mode.getD 1) ++ " not found")) := by
  have hn := hover_lookup_none _ h
  simp [hover, hn]

theorem omega_shift (P t : ℝ) (hP : P ≠ 0) :
    2 * π / P * (t + P) = 2 * π / P * t + 2 * π := by
  field_simp
  ring

theorem cos_omega_shift (P t : ℝ) (hP : P ≠ 0) :
    cos (2 * π / P * (t + P)) = cos (2 * π / P * t) := by
  rw [omega_shift P t hP, Real.cos_add_two_pi]

theorem sin_omega_shift (P t : ℝ) (hP : P ≠ 0) :
    sin (2 * π / P * (t + P)) = sin (2 * π / P * t) := by
  rw [omega_shift P t hP, Real.sin_add_two_pi]

theorem sin_two_omega_shift (P t : ℝ) (hP : P ≠ 0) :
    sin (2 * (2 * π / P) * (t + P)) = sin (2 * (2 * π / P) * t) := by
  have h : 2 * (2 * π / P) * (t + P) = 2 * (2 * π / P) * t + 2 * π + 2 * π := by
    field_simp
    ring
  rw [h, Real.sin_add_two_pi, Real.sin_add_two_pi]

theorem fmod_nonneg (x c : ℝ) (hc : 0 < c) : 0 ≤ fmod x c := by
  have h := Int.floor_le (x / c)
  have h2 : (⌊x / c⌋ : ℝ) * c ≤ x / c * c := mul_le_mul_of_nonneg_right h hc.le
  rw [div_mul_cancel₀ x (ne_of_gt hc)] at h2
  rw [fmod]
  nlinarith

theorem fmod_lt (x c : ℝ) (hc : 0 < c) : fmod x c < c := by
  have h := Int.lt_floor_add_one (x / c)
  have h2 : x / c * c < (⌊x / c⌋ + 1) * c := mul_lt_mul_of_pos_right h hc
  rw [div_mul_cancel₀ x (ne_of_gt hc)] at h2
  rw [fmod]
  nlinarith

theorem fmod_eq_self (x c : ℝ) (hc : 0 < c) (h0 : 0 ≤ x) (h1 : x < c) : fmod x c = x := by
  have hz : ⌊x / c⌋ = 0 := by
    rw [Int.floor_eq_zero_iff]
    constructor
    · exact div_nonneg h0 hc.le
    · rw [div_lt_one hc]
      exact h1
  rw [fmod, hz]
  push_cast
  ring

theorem updown_band (z0 zm Th tc : ℝ) (hz : z0 < zm) (hTh : 0 < Th)
    (h0 : 0 ≤ tc) (h1 : tc < 2 * Th) :
    z0 ≤ (if tc ≤ Th then z0 + (zm - z0) * (tc / Th)
          else zm - (zm - z0) * ((tc - Th) / Th)) ∧
    (if tc ≤ Th then z0 + (zm - z0) * (tc / Th)
     else zm - (zm - z0) * ((tc - Th) / Th)) ≤ zm := by
  constructor <;> split_ifs with h
  · nlinarith [div_nonneg h0 hTh.le, sub_pos.mpr hz]
  · have hq : (tc - Th) / Th ≤ 1 := by
      rw [div_le_one hTh]
      linarith
    nlinarith [sub_pos.mpr hz]
  · have hq : tc / Th ≤ 1 := by
      rw [div_le_one hTh]
      linarith
    nlinarith [sub_pos.mpr hz]
  · have hq : 0 ≤ (tc - Th) / Th := by
      apply div_nonneg _ hTh.le
      linarith
    nlinarith [sub_pos.mpr hz]

theorem mapM_loop_ok {α : Type} (g : α → Vec4) (l : List α) (acc : List Vec4) :
    List.mapM.loop (fun a => (Except.ok (g a) : Except TrajError Vec4)) l acc =
      Except.ok (acc.reverse ++ l.map g) := by
  induction l generalizing acc with
  | nil =>
    simp only [List.mapM.loop, List.map_nil, List.append_nil]
    rfl
  | cons a l ih =>
    simp only [List.mapM.loop, List.map_cons, ih]
    show Except.ok ((g a :: acc).reverse ++ List.map g l) = _
    simp

theorem mapM_ok {α : Type} (g : α → Vec4) (l : List α) :
    List.mapM (fun a => (Except.ok (g a) : Except TrajError Vec4)) l =
      Except.ok (l.map g) := by
  rw [show List.mapM (fun a => (Except.ok (g a) : Except TrajError Vec4)) l =
      List.mapM.loop (fun a => (Except.ok (g a) : Except TrajError Vec4)) l [] from rfl]
  rw [mapM_loop_ok]
  simp

theorem linspace_length (a b : ℝ) (n : ℕ) : (linspace a b n).length = n := by
  rw [linspace, List.length_map, List.length_range]

theorem fmod_boundary (T NR : ℝ) (hT : 0 < T) (k : ℕ) (hk : (k : ℝ) < NR) :
    fmod ((k : ℝ) * T) (NR * T) = (k : ℝ) * T := by
  have hNR : 0 < NR := lt_of_le_of_lt (Nat.cast_nonneg k) hk
  apply fmod_eq_self _ _ (mul_pos hNR hT) (by positivity)
  exact mul_lt_mul_of_pos_right hk hT

theorem floor_boundary (T : ℝ) (hT : 0 < T) (k : ℕ) : ⌊(k : ℝ) * T / T⌋ = (k : ℤ) := by
  rw [mul_div_assoc, div_self (ne_of_gt hT), mul_one, Int.floor_natCast]

theorem sawtooth_boundary (ctx : TrajContext) (k : ℕ) (hk : k < 11) :
    ∃ v, sawtooth ((k : ℝ) * sawtooth_T_seg ctx) ctx = .ok v ∧
      (v.x, v.y) = sawtooth_points.getD k (0, 0) := by
  have hlen : sawtooth_points.length = 12 := by norm_num [sawtooth_points]
  refine ⟨_, rfl, ?_⟩
  simp only [sawtooth, sawtooth_T_seg, hlen]
  norm_num
  set T : ℝ := (120 / if truthy ctx.double_speed = true then 2 else 1) / 11 with hTdef
  have hT2 : 0 < T := by
    rw [hTdef]
    cases truthy ctx.double_speed <;> norm_num
  rw [fmod_boundary T 11 hT2 k (by exact_mod_cast hk)]
  rw [floor_boundary T hT2 k]
  have hclip : (0 : ℤ) ⊔ ((k : ℤ) ⊓ 10) = (k : ℤ) := by omega
  rw [hclip]
  have hmin : ((k : ℝ) ⊓ 10) = (k : ℝ) :=
    min_eq_left (by exact_mod_cast (by omega : k ≤ 10))
  simp [hmin]

theorem triangle_boundary (ctx : TrajContext) (k : ℕ) (hk : k < 3) :
    ∃ v, triangle ((k : ℝ) * triangle_T_seg ctx) ctx = .ok v ∧
      (v.x, v.y) = triangle_points.getD k (0, 0) := by
  refine ⟨_, rfl, ?_⟩
  simp only [triangle, triangle_T_seg]
  norm_num
  set T : ℝ := 60 / if truthy ctx.double_speed = true then 6 else 3 with hTdef
  have hT2 : 0 < T := by
    rw [hTdef]
    cases truthy ctx.double_speed <;> norm_num
  rw [fmod_boundary T 3 hT2 k (by exact_mod_cast hk)]
  rw [floor_boundary T hT2 k]
  have hclip : (0 : ℤ) ⊔ ((k : ℤ) ⊓ 2) = (k : ℤ) := by omega
  rw [hclip]
  have hmin : ((k : ℝ) ⊓ 2) = (k : ℝ) :=
    min_eq_left (by exact_mod_cast (by omega : k ≤ 2))
  simp [hmin]

/-! ### Claim theorems -/

/-- C5: the four circle/figure-eight trajectories are positionally
periodic: shifting time by the (double-speed-adjusted) period leaves
the x, y, z components unchanged for every context. -/
theorem circle_fig8_xyz_periodicity (ctx : TrajContext) (t : ℝ) :
    (circle_horizontal (t + pos_period ctx) ctx).map xyz =
      (circle_horizontal t ctx).map xyz ∧
    (circle_vertical (t + pos_period ctx) ctx).map xyz =
      (circle_vertical t ctx).map xyz ∧
    (fig8_horizontal (t + pos_period ctx) ctx).map xyz =
      (fig8_horizontal t ctx).map xyz ∧
    (fig8_vertical (t + pos_period ctx) ctx).map xyz =
      (fig8_vertical t ctx).map xyz := by
  have h13 : (13.0 : ℝ) ≠ 0 := by norm_num
  have h65 : (13.0 / 2 : ℝ) ≠ 0 := by norm_num
  have hca := fun u => cos_omega_shift 13.0 u h13
  have hsa := fun u => sin_omega_shift 13.0 u h13
  have hs2a := fun u => sin_two_omega_shift 13.0 u h13
  have hcb := fun u => cos_omega_shift (13.0 / 2) u h65
  have hsb := fun u => sin_omega_shift (13.0 / 2) u h65
  have hs2b := fun u => sin_two_omega_shift (13.0 / 2) u h65
  obtain ⟨s, hm, sp, ds, sh⟩ := ctx
  cases hds : truthy ds <;> rcases sh with _ | b <;>
    simp [circle_horizontal, circle_vertical, fig8_horizontal, fig8_vertical,
      pos_period, hds, xyz, Except.map, hca, hsa, hs2a, hcb, hsb, hs2b]

/-- C7: `circle_horizontal` at `t = 0` with a simulation context and spin
disabled returns exactly `[0.6, 0.0, -3.0, 0.0]`. -/
theorem circle_horizontal_at_zero_sim_nospin :
    circle_horizontal 0 { sim := true, spin := some false } =
      .ok { x := 0.6, y := 0.0, z := -3.0, yaw := 0.0 } := by
  norm_num [circle_horizontal, truthy, SIM_HEIGHT]

/-- C8: `generate_reference_trajectory` returns exactly the same result
as `generate_horizon_with_velocity` on the same arguments (given the
same differentiation capability `J`), errors included: the source
delegates directly with the arguments reordered. -/
theorem generate_reference_trajectory_matches_horizon_with_velocity
    (J : (ℝ → TrajContext → Except TrajError Vec4) → ℝ → TrajContext → Except TrajError Vec4)
    (f : ℝ → TrajContext → Except TrajError Vec4)
    (t_start horizon : ℝ) (num_steps : ℤ) (ctx : TrajContext) :
    generate_reference_trajectory J f t_start horizon num_steps ctx =
      generate_horizon_with_velocity J f ctx t_start horizon num_steps := rfl

/-- C2 (counterexample): `generate_horizon_positions` with
`num_steps = 0` does not fail: it returns the empty batch, so the claim
that every horizon utility rejects `num_steps < 1` is false. -/
theorem generate_horizon_positions_zero_steps_returns :
    generate_horizon_positions circle_horizontal { sim := true } 0 1 0 = .ok [] := rfl

/-- C2 (amended): only `generate_horizon_with_velocity` (and its
delegating compatibility form `generate_reference_trajectory`) validate
`num_steps`, failing with `ValueError` whenever `num_steps < 1`;
`generate_horizon_positions` performs no such check: with `num_steps = 0`
it returns an empty result, and for negative `num_steps` the error comes
from the sampling backend (`np.linspace`), not from an argument check. -/
theorem horizon_num_steps_validation :
    (∀ (J : (ℝ → TrajContext → Except TrajError Vec4) → ℝ → TrajContext → Except TrajError Vec4)
       (f : ℝ → TrajContext → Except TrajError Vec4) (ctx : TrajContext)
       (t0 h : ℝ) (n : ℤ), n < 1 →
      generate_horizon_with_velocity J f ctx t0 h n =
        .error (.valueError "num_steps must be >= 1")) ∧
    (∀ (J : (ℝ → TrajContext → Except TrajError Vec4) → ℝ → TrajContext → Except TrajError Vec4)
       (f : ℝ → TrajContext → Except TrajError Vec4) (t0 h : ℝ) (n : ℤ) (ctx : TrajContext),
      n < 1 →
      generate_reference_trajectory J f t0 h n ctx =
        .error (.valueError "num_steps must be >= 1")) ∧
    (∀ (f : ℝ → TrajContext → Except TrajError Vec4) (ctx : TrajContext) (t0 h : ℝ),
      generate_horizon_positions f ctx t0 h 0 = .ok []) ∧
    (∀ (f : ℝ → TrajContext → Except TrajError Vec4) (ctx : TrajContext) (t0 h : ℝ) (n : ℤ),
      n < 0 →
      generate_horizon_positions f ctx t0 h n =
        .error (.valueError "Number of samples must be non-negative")) := by
  refine ⟨?_, ?_, ?_, ?_⟩
  · intro J f ctx t0 h n hn
    simp [generate_horizon_with_velocity, show n ≤ 0 by omega]
  · intro J f t0 h n ctx hn
    simp [generate_reference_trajectory, generate_horizon_with_velocity, show n ≤ 0 by omega]
  · intro f ctx t0 h
    rfl
  · intro f ctx t0 h n hn
    have h1 : ¬(n = 1) := by omega
    simp [generate_horizon_positions, h1, hn]

/-- C2 (witness): the validation theorem applied at concrete inputs. -/
theorem horizon_num_steps_validation_witness :
    generate_horizon_with_velocity (fun f => f) hover { sim := true } 0 1 0 =
        .error (.valueError "num_steps must be >= 1") ∧
    generate_reference_trajectory (fun f => f) hover 0 1 0 { sim := true } =
        .error (.valueError "num_steps must be >= 1") ∧
    generate_horizon_positions hover { sim := true } 0 1 (-2) =
        .error (.valueError "Number of samples must be non-negative") :=
  ⟨horizon_num_steps_validation.1 (fun f => f) hover { sim := true } 0 1 0 (by norm_num),
   horizon_num_steps_validation.2.1 (fun f => f) hover 0 1 0 { sim := true } (by norm_num),
   horizon_num_steps_validation.2.2.2 hover { sim := true } 0 1 (-2) (by norm_num)⟩

/-- C3: `generate_horizon_positions` with `num_steps = n ≥ 1` produces
`n` rows; row `k` is the trajectory evaluated at
`t_start + k * horizon / (n - 1)` when `n > 1`, and the single row is
the trajectory at `t_start` when `n = 1`. -/
theorem generate_horizon_positions_sampling
    (g : ℝ → TrajContext → Vec4) (ctx : TrajContext) (t0 h : ℝ) (n : ℤ)
    (hn : 1 ≤ n) :
    ∃ out, generate_horizon_positions (fun t c => .ok (g t c)) ctx t0 h n = .ok out ∧
      out.length = n.toNat ∧
      (n = 1 → out = [g t0 ctx]) ∧
      (1 < n → ∀ (k : ℕ) (hk : k < out.length),
        out.get ⟨k, hk⟩ = g (t0 + (k : ℝ) * h / ((n : ℝ) - 1)) ctx) := by
  by_cases h1 : n = 1
  · subst h1
    refine ⟨[g t0 ctx], ?_, rfl, fun _ => rfl, fun hlt => absurd hlt (by norm_num)⟩
    rw [generate_horizon_positions, if_pos rfl]
    exact mapM_ok (fun t => g t ctx) [t0]
  · have h2 : 1 < n := by omega
    have hneg : ¬(n < 0) := by omega
    have hcast : ((n.toNat : ℝ)) = (n : ℝ) := by
      have := Int.toNat_of_nonneg (by omega : (0 : ℤ) ≤ n)
      exact_mod_cast congrArg (fun z : ℤ => (z : ℝ)) this
    refine ⟨(linspace t0 (t0 + h) n.toNat).map (fun t => g t ctx), ?_, ?_, ?_, ?_⟩
    · rw [generate_horizon_positions, if_neg h1, if_neg hneg]
      exact mapM_ok (fun t => g t ctx) _
    · rw [List.length_map, linspace_length]
    · intro hcontra
      exact absurd hcontra h1
    · intro _ k hk
      have hk2 : k < n.toNat := by
        rw [List.length_map, linspace_length] at hk
        exact hk
      simp only [List.get_eq_getElem, List.getElem_map, linspace, List.getElem_range]
      congr 1
      rw [hcast]
      ring

/-- C3 (witness): the sampling theorem applied to a concrete trajectory
function with start 0, horizon 2 and 3 steps. -/
theorem generate_horizon_positions_sampling_witness :
    ∃ out, generate_horizon_positions
        (fun t _ => .ok (Vec4.mk t 0 0 0)) { sim := true } 0 2 3 = .ok out ∧
      out.length = (3 : ℤ).toNat := by
  obtain ⟨out, h1, h2, -, -⟩ :=
    generate_horizon_positions_sampling (fun u _ => Vec4.mk u 0 0 0)
      { sim := true } 0 2 3 (by norm_num)
  exact ⟨out, h1, h2⟩

/-- C6: at every segment boundary time `k * segment_duration`
(`k = 0 .. num_segments - 1`, within the first cycle), the x and y
components of `sawtooth` and `triangle` equal the k-th waypoint of
their fixed waypoint lists (12 points for sawtooth, 3 vertices for
triangle), for every context. -/
theorem waypoint_passthrough (ctx : TrajContext) :
    (∀ k : ℕ, k < 11 →
      ∃ v, sawtooth ((k : ℝ) * sawtooth_T_seg ctx) ctx = .ok v ∧
        (v.x, v.y) = sawtooth_points.getD k (0, 0)) ∧
    (∀ k : ℕ, k < 3 →
      ∃ v, triangle ((k : ℝ) * triangle_T_seg ctx) ctx = .ok v ∧
        (v.x, v.y) = triangle_points.getD k (0, 0)) :=
  ⟨fun k hk => sawtooth_boundary ctx k hk, fun k hk => triangle_boundary ctx k hk⟩

/-- C6 (witness): the pass-through theorem at waypoint 2 of `sawtooth`
and vertex 1 of `triangle` in a simulation context. -/
theorem waypoint_passthrough_witness :
    (∃ v, sawtooth (((2 : ℕ) : ℝ) * sawtooth_T_seg { sim := true }) { sim := true } = .ok v ∧
      (v.x, v.y) = sawtooth_points.getD 2 (0, 0)) ∧
    (∃ v, triangle (((1 : ℕ) : ℝ) * triangle_T_seg { sim := true }) { sim := true } = .ok v ∧
      (v.x, v.y) = triangle_points.getD 1 (0, 0)) :=
  ⟨(waypoint_passthrough { sim := true }).1 2 (by norm_num),
   (waypoint_passthrough { sim := true }).2 1 (by norm_num)⟩

/-- C4: `hover` raises `ValueError` when the effective mode
(`ctx.hover_mode`, default 1) is outside `[1, 8]`; otherwise raises
`RuntimeError` when not in simulation and the mode exceeds 4; otherwise
returns the fixed table entry for the mode, whose yaw is 0. -/
theorem hover_slot_semantics (t : ℝ) (ctx : TrajContext) :
    (¬(1 ≤ ctx.hover_mode.getD 1 ∧ ctx.hover_mode.getD 1 ≤ 8) →
      ∃ msg, hover t ctx = .error (.valueError msg)) ∧
    (1 ≤ ctx.hover_mode.getD 1 → ctx.hover_mode.getD 1 ≤ 8 →
      ctx.sim = false → 4 < ctx.hover_mode.getD 1 →
      ∃ msg, hover t ctx = .error (.runtimeError msg)) ∧
    (1 ≤ ctx.hover_mode.getD 1 → ctx.hover_mode.getD 1 ≤ 8 →
      (ctx.sim = true ∨ ctx.hover_mode.getD 1 ≤ 4) →
      ∃ v, hover t ctx = .ok v ∧
        hover_dict.lookup (ctx.hover_mode.getD 1) = some v ∧ v.yaw = 0) := by
  refine ⟨fun h => ?_, fun h1 h2 hsim h4 => ?_, fun h1 h2 hok => ?_⟩
  · exact ⟨_, hover_invalid_mode t ctx (by omega)⟩
  · obtain ⟨v, hv, -⟩ := hover_lookup_found _ h1 h2
    exact ⟨"hover modes 5+ not available for hardware", by simp [hover, hv, hsim, h4]⟩
  · obtain ⟨v, hv, hyaw⟩ := hover_lookup_found _ h1 h2
    refine ⟨v, ?_, hv, hyaw⟩
    rcases hok with hs | hm
    · simp [hover, hv, hs]
    · have hm4 : ¬(4 < ctx.hover_mode.getD 1) := by omega
      simp [hover, hv, hm4]

/-- C4 (witness): mode 9 gives `ValueError`; mode 5 on hardware gives
`RuntimeError`; mode 5 in simulation succeeds with zero yaw. -/
theorem hover_slot_semantics_witness :
    (∃ msg, hover 0 { sim := true, hover_mode := some 9 } = .error (.valueError msg)) ∧
    (∃ msg, hover 0 { sim := false, hover_mode := some 5 } = .error (.runtimeError msg)) ∧
    (∃ v, hover 0 { sim := true, hover_mode := some 5 } = .ok v ∧
      hover_dict.lookup ((some (5 : ℤ)).getD 1) = some v ∧ v.yaw = 0) :=
  ⟨(hover_slot_semantics 0 { sim := true, hover_mode := some 9 }).1 (by decide),
   (hover_slot_semantics 0 { sim := false, hover_mode := some 5 }).2.1
     (by decide) (by decide) rfl (by decide),
   (hover_slot_semantics 0 { sim := true, hover_mode := some 5 }).2.2
     (by decide) (by decide) (Or.inl rfl)⟩

/-- C9: the mode-range check in `hover` is performed before the
hardware check: whenever the effective mode is outside `[1, 8]`, the
error is the `ValueError` (invalid configuration) regardless of
`ctx.sim`; in particular mode 0 on hardware reports `ValueError`. -/
theorem hover_mode_check_precedes_hardware_check :
    (∀ (t : ℝ) (ctx : TrajContext),
      (ctx.hover_mode.getD 1 < 1 ∨ 8 < ctx.hover_mode.getD 1) →
      ∃ msg, hover t ctx = .error (.valueError msg)) ∧
    (∃ msg, hover 0 { sim := false, hover_mode := some 0 } = .error (.valueError msg)) := by
  constructor
  · intro t ctx h
    exact ⟨_, hover_invalid_mode t ctx h⟩
  · exact ⟨_, hover_invalid_mode 0 { sim := false, hover_mode := some 0 } (by decide)⟩

/-- C1 (counterexample): `fig8_vertical` with the `short` field left
unset raises `TypeError` (JAX rejects `None` as a `where` condition),
so the claim that every non-hover position function never raises for
every context is false. -/
theorem fig8_vertical_short_unset_raises :
    fig8_vertical 0 { sim := true } =
      .error (.typeError "where requires ndarray or scalar arguments, got NoneType") := rfl

/-- C1 (amended): every position function other than `hover` succeeds
with a (finite, real) 4-vector for every real time and every context —
except `fig8_vertical`, which raises a type error exactly when the
optional `short` field is left unset, and succeeds whenever `short` is
set to a boolean. -/
theorem traj_totality_except_fig8_vertical_short_unset :
    (∀ (t : ℝ) (ctx : TrajContext),
      (∃ v, yaw_only t ctx = .ok v) ∧
      (∃ v, circle_horizontal t ctx = .ok v) ∧
      (∃ v, circle_vertical t ctx = .ok v) ∧
      (∃ v, fig8_horizontal t ctx = .ok v) ∧
      (∃ v, helix t ctx = .ok v) ∧
      (∃ v, sawtooth t ctx = .ok v) ∧
      (∃ v, triangle t ctx = .ok v)) ∧
    (∀ (t : ℝ) (ctx : TrajContext) (b : Bool), ctx.short = some b →
      ∃ v, fig8_vertical t ctx = .ok v) ∧
    (∀ (t : ℝ) (ctx : TrajContext), ctx.short = none →
      ∃ msg, fig8_vertical t ctx = .error (.typeError msg)) := by
  refine ⟨?_, ?_, ?_⟩
  · intro t ctx
    exact ⟨⟨_, rfl⟩, ⟨_, rfl⟩, ⟨_, rfl⟩, ⟨_, rfl⟩, ⟨_, rfl⟩, ⟨_, rfl⟩, ⟨_, rfl⟩⟩
  · intro t ctx b h
    obtain ⟨s, hm, sp, ds, sh⟩ := ctx
    subst h
    exact ⟨_, rfl⟩
  · intro t ctx h
    obtain ⟨s, hm, sp, ds, sh⟩ := ctx
    subst h
    exact ⟨_, rfl⟩

/-- C1 (witness): `fig8_vertical` succeeds with `short = some false` and
raises a type error with `short` unset on a hardware context. -/
theorem traj_totality_witness :
    (∃ v, fig8_vertical 0 { sim := true, short := some false } = .ok v) ∧
    (∃ msg, fig8_vertical 0 { sim := false } = .error (.typeError msg)) :=
  ⟨traj_totality_except_fig8_vertical_short_unset.2.1 0
      { sim := true, short := some false } false rfl,
   traj_totality_except_fig8_vertical_short_unset.2.2 0 { sim := false } rfl⟩

/-- C10: the z component (third entry) of every `helix` sample lies in
the closed altitude band `[-z_max, -z0]` selected by `ctx.sim`
(`[-3.0, -2.0]` in simulation, `[-2.6, -0.85]` on hardware), for every
real time and every context. -/
theorem helix_z_band (t : ℝ) (ctx : TrajContext) :
    ∃ v, helix t ctx = .ok v ∧
      -(if ¬ctx.sim then (2.6 : ℝ) else SIM_HEIGHT) ≤ v.z ∧
      v.z ≤ -(if ¬ctx.sim then HARDWARE_HEIGHT else (2.0 : ℝ)) := by
  obtain ⟨s, hm, sp, ds, sh⟩ := ctx
  cases s <;> cases hds : truthy ds
  case false.false =>
    have h0 := fmod_nonneg t 45.0 (by norm_num)
    have h1 := fmod_lt t 45.0 (by norm_num)
    have hb := updown_band 0.85 2.6 (45.0 / 2.0) (fmod t 45.0)
      (by norm_num) (by norm_num) h0 (by norm_num; linarith)
    refine ⟨_, rfl, ?_, ?_⟩ <;>
      simp [helix, hds, HARDWARE_HEIGHT, SIM_HEIGHT] <;>
      linarith [hb.1, hb.2]
  case false.true =>
    have h0 := fmod_nonneg t (45.0 / 2) (by norm_num)
    have h1 := fmod_lt t (45.0 / 2) (by norm_num)
    have hb := updown_band 0.85 2.6 (45.0 / 2 / 2.0) (fmod t (45.0 / 2))
      (by norm_num) (by norm_num) h0 (by norm_num; linarith)
    refine ⟨_, rfl, ?_, ?_⟩ <;>
      simp [helix, hds, HARDWARE_HEIGHT, SIM_HEIGHT] <;>
      linarith [hb.1, hb.2]
  case true.false =>
    have h0 := fmod_nonneg t 45.0 (by norm_num)
    have h1 := fmod_lt t 45.0 (by norm_num)
    have hb := updown_band 2.0 3.0 (45.0 / 2.0) (fmod t 45.0)
      (by norm_num) (by norm_num) h0 (by norm_num; linarith)
    refine ⟨_, rfl, ?_, ?_⟩ <;>
      simp [helix, hds, HARDWARE_HEIGHT, SIM_HEIGHT] <;>
      linarith [hb.1, hb.2]
  case true.true =>
    have h0 := fmod_nonneg t (45.0 / 2) (by norm_num)
    have h1 := fmod_lt t (45.0 / 2) (by norm_num)
    have hb := updown_band 2.0 3.0 (45.0 / 2 / 2.0) (fmod t (45.0 / 2))
      (by norm_num) (by norm_num) h0 (by norm_num; linarith)
    refine ⟨_, rfl, ?_, ?_⟩ <;>
      simp [helix, hds, HARDWARE_HEIGHT, SIM_HEIGHT] <;>
      linarith [hb.1, hb.2]

/-- C9 (witness): mode 9 on hardware reports the `ValueError`. -/
theorem hover_mode_check_precedes_hardware_check_witness :
    ∃ msg, hover 0 { sim := false, hover_mode := some 9 } = .error (.valueError msg) :=
  hover_mode_check_precedes_hardware_check.1 0 { sim := false, hover_mode := some 9 } (by decide)

end QuadTraj
